import Mathlib

/-!
Verification of the message-block composition engine of `slack-mcp-server`
(`src/slack_mcp/server.py`): the `BlockKitBuilder` block factory and the
message-composer tools (`send_formatted_message`, `send_notification_message`,
`send_list_message`, `send_interactive_message`, `send_code_snippet`,
`send_form_message`, `send_announcement`).

Embedding notes:
* Python dict values built by the factory are modelled by the `Value` type
  (string / object-with-ordered-keys / array), so that key presence and key
  order can be stated exactly.
* Python string operations are modelled by structurally recursive functions
  on `String.data` (`pySplit`, `pyStrip`, `pyJoin`, `pyContains`, `pyLower`)
  with Python semantics: `str.split(sep)` keeps empty pieces and returns one
  empty piece for the empty string; `str.strip()` removes the characters of
  the Python whitespace set from both ends.
* Python truthiness of an `Optional[str]` argument (`if title:`) is modelled
  by `pyTruthy`: `None` and the empty string are falsy.
* The transport call `client.send_message(channel, fallback_text, thread_ts,
  blocks)` is out of scope; a composer's output is the `ClientCall` record it
  hands to the transport, or the error object it returns instead.
* The bytes of `server.py` are UTF-8 double-encoded (mojibake): the emoji and
  bullet literals in the Python source are the character sequences spelled out
  below with explicit escapes (for example the list bullet is the three
  characters U+00E2 U+20AC U+00A2, not U+2022), and the embedding reproduces
  the source file exactly.  The repository's own tests assert the intended
  single-encoded characters, so this is recorded as a divergence where a claim
  mentions a concrete character.
-/

namespace SlackMCP

/-- Python truthiness of an `Optional[str]`: `None` and `""` are falsy. -/
def pyTruthy : Option String → Bool
  | none => false
  | some s => !(s == "")

/-- The string carried by an `Optional[str]`; only read under `pyTruthy`. -/
def pyStr : Option String → String
  | none => ""
  | some s => s

/-- Python `a or d` for `a : Optional[str]` and a string default `d`. -/
def pyOrD (a : Option String) (d : String) : String :=
  if pyTruthy a then pyStr a else d

/-- The Python whitespace set used by `str.strip()` (ASCII whitespace,
the C1 separators, NEL, NBSP and the Unicode space characters). -/
def isPySpace (c : Char) : Bool :=
  c == ' ' || c == '\t' || c == '\n' || c == '\x0b' || c == '\x0c' || c == '\r' ||
  c == '\x1c' || c == '\x1d' || c == '\x1e' || c == '\x1f' ||
  c == '\x85' || c == '\xa0' || c == ' ' ||
  (' ' ≤ c && c ≤ ' ') || c == ' ' || c == ' ' ||
  c == ' ' || c == ' ' || c == '　'

/-- Python `s.strip()`: drop leading and trailing whitespace characters. -/
def pyStrip (s : String) : String :=
  String.mk ((((s.data.dropWhile isPySpace).reverse).dropWhile isPySpace).reverse)

/-- Split a character list at every occurrence of `sep`, keeping empty
pieces, as Python `str.split(sep)` does for a one-character separator. -/
def pySplitCore (sep : Char) : List Char → List (List Char)
  | [] => [[]]
  | c :: cs =>
    let rest := pySplitCore sep cs
    if c == sep then [] :: rest
    else match rest with
      | [] => [[c]]
      | hd :: tl => (c :: hd) :: tl

/-- Python `s.split(sep)` for a one-character separator `sep`. -/
def pySplit (sep : Char) (s : String) : List String :=
  (pySplitCore sep s.data).map String.mk

/-- Python `sep.join(parts)`. -/
def pyJoin (sep : String) : List String → String
  | [] => ""
  | [x] => x
  | x :: xs => x ++ sep ++ pyJoin sep xs

/-- Python `c in s` for a one-character needle. -/
def pyContains (s : String) (c : Char) : Bool :=
  s.data.contains c

/-- Python `s.lower()` (character-wise lowercasing). -/
def pyLower (s : String) : String :=
  String.mk (s.data.map Char.toLower)

/-- A Python dict/list/str value as built by `BlockKitBuilder`: an object is
an ordered association list, so key presence and order are observable. -/
inductive Value where
  | str : String → Value
  | obj : List (String × Value) → Value
  | arr : List Value → Value

/-- Whether an object value carries the key `k` (`False` on non-objects). -/
def hasKey (v : Value) (k : String) : Bool :=
  match v with
  | Value.obj kvs => kvs.any (fun kv => kv.1 == k)
  | _ => false

/-- The structured error object `{"error": msg}` a composer tool returns. -/
def errObj (msg : String) : Value :=
  Value.obj [("error", Value.str msg)]

/-- The arguments a composer hands to `SlackClient.send_message`:
channel, fallback text, optional thread timestamp, and the block list. -/
structure ClientCall where
  channel : String
  text : String
  thread_ts : Option String
  blocks : List Value

namespace BlockKitBuilder

/-- `BlockKitBuilder.header` (server.py lines 561-570). -/
def header (text : String) : Value :=
  Value.obj [("type", Value.str "header"),
             ("text", Value.obj [("type", Value.str "plain_text"),
                                 ("text", Value.str text)])]

/-- `BlockKitBuilder.section` (server.py lines 572-581); renamed with a
`_block` suffix because `section` is a Lean keyword. -/
def section_block (text : String) (text_type : String := "mrkdwn") : Value :=
  Value.obj [("type", Value.str "section"),
             ("text", Value.obj [("type", Value.str text_type),
                                 ("text", Value.str text)])]

/-- `BlockKitBuilder.divider` (server.py lines 583-586). -/
def divider : Value :=
  Value.obj [("type", Value.str "divider")]

/-- `BlockKitBuilder.fields_section` (server.py lines 588-600). -/
def fields_section (fields : List String) : Value :=
  Value.obj [("type", Value.str "section"),
             ("fields", Value.arr (fields.map (fun field =>
               Value.obj [("type", Value.str "mrkdwn"),
                          ("text", Value.str field)])))]

/-- `BlockKitBuilder.context` (server.py lines 602-614). -/
def context (elements : List String) : Value :=
  Value.obj [("type", Value.str "context"),
             ("elements", Value.arr (elements.map (fun element =>
               Value.obj [("type", Value.str "mrkdwn"),
                          ("text", Value.str element)])))]

/-- `BlockKitBuilder.image` (server.py lines 616-629): the `title` key is
added only when the argument is truthy. -/
def image (image_url : String) (alt_text : String)
    (title : Option String := none) : Value :=
  Value.obj ([("type", Value.str "image"),
              ("image_url", Value.str image_url),
              ("alt_text", Value.str alt_text)] ++
    (if pyTruthy title then
       [("title", Value.obj [("type", Value.str "plain_text"),
                             ("text", Value.str (pyStr title))])]
     else []))

/-- `BlockKitBuilder.button` (server.py lines 631-648): `value` and `url`
keys are added only when truthy; the `style` key only when the argument is
exactly `"primary"` or `"danger"` (Python `style in ["primary", "danger"]`). -/
def button (text : String) (action_id : String)
    (value : Option String := none) (url : Option String := none)
    (style : Option String := none) : Value :=
  Value.obj (([("type", Value.str "button"),
               ("text", Value.obj [("type", Value.str "plain_text"),
                                   ("text", Value.str text)]),
               ("action_id", Value.str action_id)] ++
    (if pyTruthy value then [("value", Value.str (pyStr value))] else [])) ++
    ((if pyTruthy url then [("url", Value.str (pyStr url))] else []) ++
     (if style == some "primary" || style == some "danger" then
        [("style", Value.str (pyStr style))]
      else [])))

/-- `BlockKitBuilder.actions` (server.py lines 650-656). -/
def actions (elements : List Value) : Value :=
  Value.obj [("type", Value.str "actions"), ("elements", Value.arr elements)]

/-- `BlockKitBuilder.select_menu` (server.py lines 658-678); an option is a
pair of its display text and its value. -/
def select_menu (placeholder : String) (action_id : String)
    (options : List (String × String)) : Value :=
  Value.obj [("type", Value.str "static_select"),
             ("placeholder", Value.obj [("type", Value.str "plain_text"),
                                        ("text", Value.str placeholder)]),
             ("action_id", Value.str action_id),
             ("options", Value.arr (options.map (fun option =>
               Value.obj [("text", Value.obj [("type", Value.str "plain_text"),
                                              ("text", Value.str option.1)]),
                          ("value", Value.str option.2)])))]

/-- `BlockKitBuilder.section_with_accessory` (server.py lines 680-690). -/
def section_with_accessory (text : String) (accessory : Value)
    (text_type : String := "mrkdwn") : Value :=
  Value.obj [("type", Value.str "section"),
             ("text", Value.obj [("type", Value.str text_type),
                                 ("text", Value.str text)]),
             ("accessory", accessory)]

/-- `BlockKitBuilder.code_block` (server.py lines 692-702): the Python
f-string inserts `language + chr(10)` only when `language` is truthy. -/
def code_block (code : String) (language : Option String := none) : Value :=
  let formatted_code :=
    "```" ++ (if pyTruthy language then pyStr language ++ "\n" else "") ++
    code ++ "```"
  Value.obj [("type", Value.str "section"),
             ("text", Value.obj [("type", Value.str "mrkdwn"),
                                 ("text", Value.str formatted_code)])]

end BlockKitBuilder

/-- The literal success emoji in `server.py` line 818.  The source file is
UTF-8 double-encoded, so the literal is U+00E2 U+0153 U+2026, not U+2705. -/
def successEmoji : String := "âœ…"

/-- The literal warning emoji in `server.py` line 819 (double-encoded). -/
def warningEmoji : String := "âš ï¸"

/-- The literal error emoji in `server.py` line 820 (double-encoded). -/
def errorEmoji : String := "âŒ"

/-- The literal info emoji in `server.py` line 821 (double-encoded). -/
def infoEmoji : String := "â„¹ï¸"

/-- The literal list bullet in `server.py` line 881: U+00E2 U+20AC U+00A2
(the double-encoded form of U+2022). -/
def listBullet : String := "â€¢"

/-- The literal announcement prefix in `server.py` lines 1053 and 1069:
U+00F0 U+0178 U+201C U+00A2 (the double-encoded form of U+1F4E2). -/
def announceMoji : String := "ðŸ“¢"

/-- The `info` entry of `status_config` (server.py line 821). -/
def info_config : String × String := (infoEmoji, "#17a2b8")

/-- The `status_config` table of `send_notification_message`
(server.py lines 817-822): status keyword to (emoji, color). -/
def status_config : List (String × String × String) :=
  [("success", (successEmoji, "#28a745")),
   ("warning", (warningEmoji, "#ffc107")),
   ("error", (errorEmoji, "#dc3545")),
   ("info", info_config)]

/-- `status_config.get(status.lower(), status_config["info"])`
(server.py line 824). -/
def statusGet (status : String) : String × String :=
  match status_config.lookup (pyLower status) with
  | some config => config
  | none => info_config

/-- The item-splitting step of `send_list_message` (server.py lines 874-878):
split on newline when one occurs in `items`, else on comma; strip each piece
and keep only pieces that are truthy after stripping. -/
def itemList (items : String) : List String :=
  if pyContains items '\n' then
    ((pySplit '\n' items).map pyStrip).filter (fun item => !(item == ""))
  else
    ((pySplit ',' items).map pyStrip).filter (fun item => !(item == ""))

/-- A decoded entry of the `buttons` JSON array of `send_interactive_message`:
`text` and `action_id` are required, the rest are `dict.get` lookups. -/
structure BtnConfig where
  text : String
  action_id : String
  value : Option String := none
  url : Option String := none
  style : Option String := none

/-- `send_formatted_message` (server.py lines 747-792), compose stage:
append header / section / fields section / context for each truthy argument,
in that order; with no block, return the validation-error object. -/
def send_formatted_message (channel : String)
    (title text fields context : Option String)
    (thread_ts : Option String) : Except Value ClientCall :=
  let blocks : List Value := []
  let blocks := if pyTruthy title then
      blocks ++ [BlockKitBuilder.header (pyStr title)] else blocks
  let blocks := if pyTruthy text then
      blocks ++ [BlockKitBuilder.section_block (pyStr text)] else blocks
  let blocks := if pyTruthy fields then
      blocks ++ [BlockKitBuilder.fields_section
        ((pySplit ',' (pyStr fields)).map pyStrip)] else blocks
  let blocks := if pyTruthy context then
      blocks ++ [BlockKitBuilder.context [pyStr context]] else blocks
  if blocks.isEmpty then
    Except.error (errObj
      "At least one of title, text, fields, or context must be provided")
  else
    Except.ok ⟨ channel,
                pyOrD title (pyOrD text "Formatted message"),
                thread_ts, blocks⟩

/-- `send_notification_message` (server.py lines 795-846), compose stage:
one inline section block with the resolved status emoji, then divider and
context only when `details` is truthy. -/
def send_notification_message (channel status title description : String)
    (details thread_ts : Option String) : ClientCall :=
  let config := statusGet status
  let blocks : List Value :=
    [Value.obj [("type", Value.str "section"),
                ("text", Value.obj [("type", Value.str "mrkdwn"),
                  ("text", Value.str
                    (config.1 ++ " *" ++ title ++ "*\n" ++ description))])]]
  let blocks := if pyTruthy details then
      blocks ++ [BlockKitBuilder.divider,
                 BlockKitBuilder.context [pyStr details]] else blocks
  ⟨ channel,
    config.1 ++ " " ++ title ++ ": " ++ description,
    thread_ts, blocks⟩

/-- `send_list_message` (server.py lines 849-890), compose stage. -/
def send_list_message (channel title items : String)
    (description thread_ts : Option String) : ClientCall :=
  let blocks : List Value := [BlockKitBuilder.header title]
  let blocks := if pyTruthy description then
      blocks ++ [BlockKitBuilder.section_block (pyStr description),
                 BlockKitBuilder.divider] else blocks
  let item_list := itemList items
  let formatted_items :=
    pyJoin "\n" (item_list.map (fun item => listBullet ++ " " ++ item))
  let blocks := blocks ++ [BlockKitBuilder.section_block formatted_items]
  ⟨ channel,
    title ++ ": " ++ pyJoin ", " item_list,
    thread_ts, blocks⟩

/-- `send_interactive_message` (server.py lines 893-940), compose stage.
The `buttons` argument models the outcome of `json.loads` on the raw
`buttons` string: `Except.error e` when the string is not valid JSON (`e`
being the decoder's message), which the Python `except` handler turns into
the `{"error": e}` result, discarding the blocks built before the failure. -/
def send_interactive_message (channel title description : String)
    (buttons : Except String (List BtnConfig))
    (thread_ts : Option String) : Except Value ClientCall :=
  match buttons with
  | Except.error e => Except.error (errObj e)
  | Except.ok button_configs =>
    let blocks : List Value :=
      [BlockKitBuilder.header title, BlockKitBuilder.section_block description]
    let button_elements := button_configs.map (fun b =>
      BlockKitBuilder.button b.text b.action_id b.value b.url b.style)
    let blocks := if button_elements.isEmpty then blocks
      else blocks ++ [BlockKitBuilder.actions button_elements]
    Except.ok ⟨ channel, title ++ ": " ++ description,
                thread_ts, blocks⟩

/-- `send_code_snippet` (server.py lines 943-977), compose stage. -/
def send_code_snippet (channel title code : String)
    (language description thread_ts : Option String) : ClientCall :=
  let blocks : List Value := [BlockKitBuilder.header title]
  let blocks := if pyTruthy description then
      blocks ++ [BlockKitBuilder.section_block (pyStr description)] else blocks
  let blocks := blocks ++ [BlockKitBuilder.code_block code language]
  ⟨ channel,
    title ++ ": " ++ code.take 100 ++
      (if code.length > 100 then "..." else ""),
    thread_ts, blocks⟩

/-- `send_form_message` (server.py lines 980-1028), compose stage.  The
`select_options` argument models the outcome of `json.loads` on the raw
`select_options` string, as for `send_interactive_message`. -/
def send_form_message (channel title description : String)
    (select_options : Except String (List (String × String)))
    (select_placeholder select_action_id : String)
    (thread_ts : Option String) : Except Value ClientCall :=
  match select_options with
  | Except.error e => Except.error (errObj e)
  | Except.ok options =>
    let blocks : List Value :=
      [BlockKitBuilder.header title,
       BlockKitBuilder.section_block description,
       BlockKitBuilder.section_with_accessory "Please make your selection:"
         (BlockKitBuilder.select_menu select_placeholder select_action_id
           options)]
    Except.ok ⟨ channel, title ++ ": " ++ description,
                thread_ts, blocks⟩

/-- `send_announcement` (server.py lines 1031-1075), compose stage.  The
`now_str` argument models `datetime.now().strftime` with format
`%Y-%m-%d %H:%M` at the moment of the call. -/
def send_announcement (channel title message : String)
    (author timestamp : Option String) (now_str : String)
    (thread_ts : Option String) : ClientCall :=
  let blocks : List Value :=
    [BlockKitBuilder.header (announceMoji ++ " " ++ title),
     BlockKitBuilder.section_block message]
  let context_elements :=
    (if pyTruthy author then ["*By:* " ++ pyStr author] else []) ++
    [(if pyTruthy timestamp then "*Date:* " ++ pyStr timestamp
      else "*Date:* " ++ now_str)]
  let blocks := if context_elements.isEmpty then blocks
    else blocks ++ [BlockKitBuilder.context context_elements]
  ⟨ channel,
    announceMoji ++ " " ++ title ++ ": " ++ message,
    thread_ts, blocks⟩

/-- Whether a composer result that may fail carries at least one block
whenever it is a success. -/
def okNonemptyBlocks : Except Value ClientCall → Bool
  | Except.error _ => true
  | Except.ok cc => decide (1 ≤ cc.blocks.length)

/-- C1: `send_formatted_message` appends exactly the blocks for the supplied
(truthy) parameters, in the fixed relative order header(title),
section(text), fields section(fields split on comma, pieces stripped),
context([context]); with all four supplied this is exactly 4 blocks, and
with none it is the validation error. -/
theorem send_formatted_message_block_order :
    ∀ (ch : String) (th : Option String) (t x f c : Option String),
    send_formatted_message ch t x f c th =
      (if pyTruthy t || pyTruthy x || pyTruthy f || pyTruthy c then
        Except.ok ⟨ ch, pyOrD t (pyOrD x "Formatted message"),
          th,
          (if pyTruthy t then [BlockKitBuilder.header (pyStr t)] else []) ++
            (if pyTruthy x then [BlockKitBuilder.section_block (pyStr x)] else []) ++
            (if pyTruthy f then
               [BlockKitBuilder.fields_section ((pySplit ',' (pyStr f)).map pyStrip)]
             else []) ++
            (if pyTruthy c then [BlockKitBuilder.context [pyStr c]] else [])⟩
      else Except.error (errObj
        "At least one of title, text, fields, or context must be provided")) := by
  intro ch th t x f c
  simp only [send_formatted_message]
  cases ht : pyTruthy t <;> cases hx : pyTruthy x <;>
    cases hf : pyTruthy f <;> cases hc : pyTruthy c <;> simp

/-- C2: `send_formatted_message` with no optional field supplied returns the
validation-error object, and every composer emits at least one block on any
successful composition. -/
theorem composed_messages_nonempty :
    (∀ (ch : String) (th : Option String),
       send_formatted_message ch none none none none th =
         Except.error (errObj
           "At least one of title, text, fields, or context must be provided")) ∧
    (∀ (ch st ti de : String) (dt th : Option String),
       1 ≤ (send_notification_message ch st ti de dt th).blocks.length) ∧
    (∀ (ch ti its : String) (ds th : Option String),
       1 ≤ (send_list_message ch ti its ds th).blocks.length) ∧
    (∀ (ch ti cd : String) (lg ds th : Option String),
       1 ≤ (send_code_snippet ch ti cd lg ds th).blocks.length) ∧
    (∀ (ch ti ms : String) (au ts : Option String) (now : String)
       (th : Option String),
       1 ≤ (send_announcement ch ti ms au ts now th).blocks.length) ∧
    (∀ (ch ti de : String) (btns : Except String (List BtnConfig))
       (th : Option String),
       okNonemptyBlocks (send_interactive_message ch ti de btns th) = true) ∧
    (∀ (ch ti de : String) (opts : Except String (List (String × String)))
       (ph aid : String) (th : Option String),
       okNonemptyBlocks (send_form_message ch ti de opts ph aid th) = true) := by
  refine ⟨fun ch th => rfl, ?_, ?_, ?_, ?_, ?_, ?_⟩
  · intro ch st ti de dt th
    simp only [send_notification_message]
    cases pyTruthy dt <;> simp
  · intro ch ti its ds th
    simp only [send_list_message]
    cases pyTruthy ds <;> simp
  · intro ch ti cd lg ds th
    simp only [send_code_snippet]
    cases pyTruthy ds <;> simp
  · intro ch ti ms au ts now th
    simp only [send_announcement]
    cases pyTruthy au <;> cases pyTruthy ts <;> simp
  · intro ch ti de btns th
    cases btns with
    | error e => rfl
    | ok cfgs => cases cfgs <;> simp [send_interactive_message, okNonemptyBlocks]
  · intro ch ti de opts ph aid th
    cases opts <;> simp [send_form_message, okNonemptyBlocks]

/-- C3 counterexample: with `language` supplied as the empty string the code
produces no newline after the opening fence, so the claimed rendering
(language inserted followed by a newline, for every given language string)
fails at `language = ""`. -/
theorem code_block_claim_counterexample :
    BlockKitBuilder.code_block "x=1" (some "") =
      Value.obj [("type", Value.str "section"),
        ("text", Value.obj [("type", Value.str "mrkdwn"),
          ("text", Value.str "```x=1```")])] ∧
    ("```x=1```" : String) ≠ "```" ++ "" ++ "\n" ++ "x=1" ++ "```" :=
  ⟨rfl, by decide⟩

/-- C3 amended: `code_block(code, language)` renders the mrkdwn text
exactly as backtick fence, language, newline, code, closing fence when the
language is given and non-empty, and as fence, code, fence (no newline after
the opening fence) when the language is absent or empty; in particular the
two quoted examples hold. -/
theorem code_block_text_shape :
    (∀ code lang : String, lang ≠ "" →
       BlockKitBuilder.code_block code (some lang) =
         Value.obj [("type", Value.str "section"),
           ("text", Value.obj [("type", Value.str "mrkdwn"),
             ("text", Value.str ("```" ++ lang ++ "\n" ++ code ++ "```"))])]) ∧
    (∀ code : String,
       BlockKitBuilder.code_block code none =
         Value.obj [("type", Value.str "section"),
           ("text", Value.obj [("type", Value.str "mrkdwn"),
             ("text", Value.str ("```" ++ code ++ "```"))])]) ∧
    (∀ code : String,
       BlockKitBuilder.code_block code (some "") =
         Value.obj [("type", Value.str "section"),
           ("text", Value.obj [("type", Value.str "mrkdwn"),
             ("text", Value.str ("```" ++ code ++ "```"))])]) ∧
    BlockKitBuilder.code_block "echo \u0027hi\u0027" none =
      Value.obj [("type", Value.str "section"),
        ("text", Value.obj [("type", Value.str "mrkdwn"),
          ("text", Value.str "```echo \u0027hi\u0027```")])] ∧
    BlockKitBuilder.code_block "x=1" (some "python") =
      Value.obj [("type", Value.str "section"),
        ("text", Value.obj [("type", Value.str "mrkdwn"),
          ("text", Value.str "```python\nx=1```")])] := by
  refine ⟨?_, ?_, ?_, rfl, rfl⟩
  · intro code lang h
    have hb : (lang == "") = false := by simpa using h
    simp [BlockKitBuilder.code_block, pyTruthy, pyStr, hb, String.append_assoc]
  · intro code
    simp [BlockKitBuilder.code_block, pyTruthy]
  · intro code
    simp [BlockKitBuilder.code_block, pyTruthy, pyStr]

/-- C3 witness: the amended general rule applied at the concrete input
`code_block("x=1", "python")`. -/
theorem code_block_text_shape_witness :
    BlockKitBuilder.code_block "x=1" (some "python") =
      Value.obj [("type", Value.str "section"),
        ("text", Value.obj [("type", Value.str "mrkdwn"),
          ("text", Value.str ("```" ++ "python" ++ "\n" ++ "x=1" ++ "```"))])] :=
  code_block_text_shape.1 "x=1" "python" (by decide)

/-- C4: at the claim's input the item splitting is on newline into
["a", "b, c", "d"] and the fallback joins them with commas exactly as
claimed, but the rendered section prefixes each item with the source file's
double-encoded bullet (U+00E2 U+20AC U+00A2), not with U+2022 as the claim
and the repository's own tests state. -/
theorem send_list_message_bullet_divergence :
    itemList "a\nb, c\nd" = ["a", "b, c", "d"] ∧
    send_list_message "C1" "T" "a\nb, c\nd" none none =
      ⟨ "C1", "T: a, b, c, d", none,
        [BlockKitBuilder.header "T",
          BlockKitBuilder.section_block
            (listBullet ++ " a\n" ++ listBullet ++ " b, c\n" ++
             listBullet ++ " d")]⟩ ∧
    listBullet ≠ "•" :=
  ⟨by decide, rfl, by decide⟩

/-- C5: `send_notification_message` resolves the status case-insensitively
through `statusGet`; a status whose lowercasing is not a key of the table
resolves to the info entry (never an error), and with `details` absent the
output is exactly one section block whose mrkdwn text is the emoji, a
space, the bold title, a newline and the description. -/
theorem notification_status_resolution :
    (∀ (ch st ti de : String) (th : Option String),
       send_notification_message ch st ti de none th =
         ⟨ ch,
           (statusGet st).1 ++ " " ++ ti ++ ": " ++ de,
           th,
           [Value.obj [("type", Value.str "section"),
             ("text", Value.obj [("type", Value.str "mrkdwn"),
               ("text", Value.str
                 ((statusGet st).1 ++ " *" ++ ti ++ "*\n" ++ de))])]]⟩) ∧
    (∀ st : String, status_config.lookup (pyLower st) = none →
       statusGet st = info_config) ∧
    statusGet "unknown" = statusGet "info" := by
  refine ⟨fun ch st ti de th => rfl, ?_, rfl⟩
  intro st h
  simp [statusGet, h]

/-- C5 witness: the fallback rule applied at the concrete status
`"unknown"`, whose lowercasing is not in the table. -/
theorem notification_status_resolution_witness :
    statusGet "unknown" = info_config :=
  notification_status_resolution.2.1 "unknown" (by decide)

/-- C6: a button value carries the `value` (resp. `url`) key exactly when
the argument is truthy, and the `style` key exactly when the argument
equals `"primary"` or `"danger"`; an invalid style such as `"loud"` is
dropped without error, and an image built without a title has no `title`
key at all. -/
theorem button_image_optional_fields :
    (∀ (t a : String) (v u s : Option String),
       hasKey (BlockKitBuilder.button t a v u s) "value" = pyTruthy v ∧
       hasKey (BlockKitBuilder.button t a v u s) "url" = pyTruthy u ∧
       hasKey (BlockKitBuilder.button t a v u s) "style" =
         (s == some "primary" || s == some "danger")) ∧
    hasKey (BlockKitBuilder.button "Go" "a1" none none (some "loud"))
      "style" = false ∧
    (∀ url alt : String,
       hasKey (BlockKitBuilder.image url alt none) "title" = false) := by
  refine ⟨?_, by decide, ?_⟩
  · intro t a v u s
    refine ⟨?_, ?_, ?_⟩ <;>
      (simp only [BlockKitBuilder.button, hasKey, List.any_append]
       cases pyTruthy v <;> cases pyTruthy u <;>
         cases s == some "primary" || s == some "danger" <;> simp)
  · intro url alt
    simp [BlockKitBuilder.image, hasKey, pyTruthy]

/-- C7: when the `buttons` string fails JSON decoding, the composer returns
the structured error object carrying the decoder's message and no message
is composed (the header and section built before the failure are
discarded, not sent). -/
theorem interactive_message_malformed_buttons :
    ∀ (ch ti de e : String) (th : Option String),
    send_interactive_message ch ti de (Except.error e) th =
      Except.error (errObj e) ∧
    (send_interactive_message ch ti de (Except.error e) th).isOk = false :=
  fun _ _ _ _ _ => ⟨rfl, rfl⟩

/-- C8: the announcement's context block is always present — the author
line only when an author is given, the date line unconditionally — but the
header and fallback prefix is the source file's double-encoded sequence
U+00F0 U+0178 U+201C U+00A2, not U+1F4E2 as the claim states. -/
theorem send_announcement_divergence :
    send_announcement "C1" "T" "M" none none "2026-10-12 07:30" none =
      ⟨ "C1", announceMoji ++ " T: M", none,
        [BlockKitBuilder.header (announceMoji ++ " T"),
          BlockKitBuilder.section_block "M",
          BlockKitBuilder.context ["*Date:* 2026-10-12 07:30"]]⟩ ∧
    send_announcement "C1" "T" "M" (some "Ann") (some "2024-01-01")
        "2026-10-12 07:30" none =
      ⟨ "C1", announceMoji ++ " T: M", none,
        [BlockKitBuilder.header (announceMoji ++ " T"),
          BlockKitBuilder.section_block "M",
          BlockKitBuilder.context ["*By:* Ann", "*Date:* 2024-01-01"]]⟩ ∧
    announceMoji ≠ "📢" :=
  ⟨rfl, rfl, by decide⟩

/-- C9: `send_formatted_message` splits `fields` on comma and strips each
piece but drops nothing, so the number of field entries equals the number
of comma-separated pieces and an input like "a,,b" yields a field entry
whose text is the empty string. -/
theorem send_formatted_message_fields_empties :
    (∀ f : String,
       ((pySplit ',' f).map pyStrip).length = (pySplit ',' f).length) ∧
    (∀ (ch : String) (th : Option String) (f : String), f ≠ "" →
       send_formatted_message ch none none (some f) none th =
         Except.ok ⟨ ch, "Formatted message",
           th,
           [BlockKitBuilder.fields_section
             ((pySplit ',' f).map pyStrip)]⟩) ∧
    BlockKitBuilder.fields_section ((pySplit ',' "a,,b").map pyStrip) =
      Value.obj [("type", Value.str "section"),
        ("fields", Value.arr
          [Value.obj [("type", Value.str "mrkdwn"), ("text", Value.str "a")],
           Value.obj [("type", Value.str "mrkdwn"), ("text", Value.str "")],
           Value.obj [("type", Value.str "mrkdwn"), ("text", Value.str "b")]])] := by
  refine ⟨fun f => List.length_map _ _, ?_, rfl⟩
  intro ch th f h
  have hb : (f == "") = false := by simpa using h
  simp [send_formatted_message, pyTruthy, pyStr, pyOrD, hb]

/-- C9 witness: the keep-empty-pieces rule applied at the concrete input
"a,,b". -/
theorem send_formatted_message_fields_empties_witness :
    send_formatted_message "C" none none (some "a,,b") none none =
      Except.ok ⟨ "C", "Formatted message",
        none,
        [BlockKitBuilder.fields_section ["a", "", "b"]]⟩ := by
  have h := send_formatted_message_fields_empties.2.1 "C" none "a,,b" (by decide)
  have e : (pySplit ',' "a,,b").map pyStrip = ["a", "", "b"] := by decide
  rw [e] at h
  exact h

/-- C10: `send_list_message` never fails: when every piece of `items` is
empty after stripping, the composition still succeeds, emitting the header
(and the optional description and divider) followed by an items section
whose text is empty, with fallback text equal to the title, a colon and a
space. -/
theorem send_list_message_all_empty_items :
    ∀ (ch ti items : String) (ds th : Option String),
    itemList items = [] →
    send_list_message ch ti items ds th =
      ⟨ ch, ti ++ ": ", th,
        (if pyTruthy ds then
            [BlockKitBuilder.header ti,
             BlockKitBuilder.section_block (pyStr ds),
             BlockKitBuilder.divider]
          else [BlockKitBuilder.header ti]) ++
          [BlockKitBuilder.section_block ""]⟩ := by
  intro ch ti items ds th h
  simp only [send_list_message, h]
  cases pyTruthy ds <;> simp [pyJoin]

/-- C10 witness: the all-empty-pieces rule applied at the concrete input
",,," with no description. -/
theorem send_list_message_all_empty_items_witness :
    send_list_message "C" "T" ",,," none none =
      ⟨ "C", "T: ", none,
        [BlockKitBuilder.header "T",
                   BlockKitBuilder.section_block ""]⟩ := by
  have h := send_list_message_all_empty_items "C" "T" ",,," none none (by decide)
  simpa using h

end SlackMCP
